import Mathlib

/-!
# Ticket controller (`server/controllers/ticketController.js`)

A shallow embedding of the six request handlers of the ticket controller and
of the document-store calls they make, followed by the properties of the
handlers.

Modelling conventions.

* The two collections are lists in store order. `User.findById` and
  `Ticket.findById` return the first document carrying the id, `Ticket.find`
  filters in store order, `Ticket.create` appends, `Ticket.remove` deletes the
  document carrying the id, `Ticket.findByIdAndUpdate` rewrites it in place.
* Identifiers are strings: `req.user.id` and `req.params.id` are strings and
  the handlers compare `ticket.user.toString()` with `req.user.id`.
* The id of a new document is produced by the store, not by the controller;
  `createTicket` receives it as the argument `newId`.
* A handler returns the response it sends together with the store it leaves.
  A thrown `Error` after `res.status(c)` is the response `Response.error c msg`.
* Store calls are taken to complete, except in `getAllTickets`, whose
  `try`/`catch` handles a failing `Ticket.find()`; there the outcome of the
  read is the argument `readOk`.
-/

namespace TicketController

/-- Identifiers of users and tickets. -/
abbrev Id := String

/-- Modelled from the spec: `models/userModel` is absent; a user record has a
unique `id` and the flag `isAdmin`, the two fields the controller reads. -/
structure User where
  id : Id
  isAdmin : Bool
deriving DecidableEq

/-- Modelled from the spec: `models/ticketModel` is absent; a ticket has the
fields `id`, `user`, `product`, `description`, `status` and a nullable `tutor`. -/
structure Ticket where
  id : Id
  user : Id
  product : String
  description : String
  status : String
  tutor : Option Id
deriving DecidableEq

/-- The request body `req.body`, restricted to the fields of the ticket schema.
A field that is absent from the body is `none`; `tutor : some none` is the body
`{tutor: null}`. -/
structure Body where
  product : Option String
  description : Option String
  user : Option Id
  status : Option String
  tutor : Option (Option Id)
deriving DecidableEq

/-- The body `{}`. -/
def Body.empty : Body := ⟨none, none, none, none, none⟩

/-- The two persisted collections. -/
structure Store where
  users : List User
  tickets : List Ticket
deriving DecidableEq

/-- What `res.json(...)` is given. -/
inductive Json where
  | doc (t : Ticket)
  | docs (ts : List Ticket)
  | success (b : Bool)
  | null
deriving DecidableEq

/-- The outcome of a handler: `res.status(c).json(v)`, or `res.status(c)`
followed by `throw new Error(msg)`. -/
inductive Response where
  | json (status : Nat) (body : Json)
  | error (status : Nat) (message : String)
deriving DecidableEq

/-- Status code of a response. -/
def Response.status : Response → Nat
  | .json c _ => c
  | .error c _ => c

/-- Message of the thrown error, if the handler threw. -/
def Response.message : Response → Option String
  | .json _ _ => none
  | .error _ m => some m

/-- JavaScript truthiness of a text field read from the body: `undefined` and
the empty string are falsy. -/
def truthy : Option String → Bool
  | none => false
  | some v => v != ""

/-- `User.findById(id)`. -/
def User.findById (users : List User) (id : Id) : Option User :=
  users.find? (fun u => u.id == id)

/-- `Ticket.findById(id)`. -/
def Ticket.findById (tickets : List Ticket) (id : Id) : Option Ticket :=
  tickets.find? (fun t => t.id == id)

/-- `Ticket.find({user: owner})`. -/
def Ticket.find (tickets : List Ticket) (owner : Id) : List Ticket :=
  tickets.filter (fun t => t.user == owner)

/-- `Ticket.find()` with no filter; `readOk = false` is a read that throws. -/
def Ticket.findAll (tickets : List Ticket) (readOk : Bool) : Option (List Ticket) :=
  if readOk then some tickets else none

/-- `Ticket.create(doc)`: the document gets the id the store generated and is
appended to the collection; the created document is returned. -/
def Ticket.create (tickets : List Ticket) (newId : Id) (product description : String)
    (user : Id) (status : String) (tutor : Option Id) : Ticket × List Ticket :=
  let t : Ticket := ⟨newId, user, product, description, status, tutor⟩
  (t, tickets ++ [t])

/-- `ticket.remove()`: deletes the document that carries the ticket's id. -/
def Ticket.remove (tickets : List Ticket) (t : Ticket) : List Ticket :=
  tickets.eraseP (fun x => x.id == t.id)

/-- The merge performed by an update: every field present in the body
overwrites the stored one, the others are kept. -/
def Body.applyTo (b : Body) (t : Ticket) : Ticket :=
  ⟨t.id,
   b.user.getD t.user,
   b.product.getD t.product,
   b.description.getD t.description,
   b.status.getD t.status,
   b.tutor.getD t.tutor⟩

/-- `Ticket.findByIdAndUpdate(id, body, {new: true})`: merges the body into the
document carrying the id and returns the document after the update (`none`,
JavaScript `null`, when no document carries the id). -/
def Ticket.findByIdAndUpdate (tickets : List Ticket) (id : Id) (body : Body) :
    Option Ticket × List Ticket :=
  match tickets with
  | [] => (none, [])
  | t :: ts =>
    if t.id == id then (some (body.applyTo t), body.applyTo t :: ts)
    else
      let r := Ticket.findByIdAndUpdate ts id body
      (r.1, t :: r.2)

/-- Handler `getTickets`; `reqUser` is `req.user.id`. -/
def getTickets (s : Store) (reqUser : Id) : Response × Store :=
  match User.findById s.users reqUser with
  | none => (.error 401 "User not found", s)
  | some _ => (.json 200 (.docs (Ticket.find s.tickets reqUser)), s)

/-- Handler `getAllTickets`. The request is not read. -/
def getAllTickets (s : Store) (readOk : Bool) (_reqUser : Option Id) : Response × Store :=
  match Ticket.findAll s.tickets readOk with
  | some tickets => (.json 200 (.docs tickets), s)
  | none => (.error 401 "Not a tutor.", s)

/-- Handler `getSingleTicket`; `paramsId` is `req.params.id`. -/
def getSingleTicket (s : Store) (reqUser : Id) (paramsId : Id) : Response × Store :=
  match User.findById s.users reqUser with
  | none => (.error 401 "User not found", s)
  | some user =>
    match Ticket.findById s.tickets paramsId with
    | none => (.error 404 "Ticket not found", s)
    | some ticket =>
      if ticket.user != reqUser && !user.isAdmin then (.error 401 "Not authorized", s)
      else (.json 200 (.doc ticket), s)

/-- Handler `createTicket`; only `product` and `description` are read from the
body. Past the first check both are present and non-empty, so the default of
`getD` is never taken. -/
def createTicket (s : Store) (reqUser : Id) (body : Body) (newId : Id) : Response × Store :=
  if !truthy body.product || !truthy body.description then
    (.error 400 "Please add a product and description", s)
  else
    match User.findById s.users reqUser with
    | none => (.error 401 "User not found", s)
    | some _ =>
      let r := Ticket.create s.tickets newId (body.product.getD "") (body.description.getD "")
        reqUser "new" none
      (.json 200 (.doc r.1), ⟨s.users, r.2⟩)

/-- Handler `deleteSingleTicket`. -/
def deleteSingleTicket (s : Store) (reqUser : Id) (paramsId : Id) : Response × Store :=
  match User.findById s.users reqUser with
  | none => (.error 401 "User not found", s)
  | some user =>
    match Ticket.findById s.tickets paramsId with
    | none => (.error 404 "Ticket not found", s)
    | some ticket =>
      if ticket.user != reqUser && !user.isAdmin then (.error 401 "Not authorized", s)
      else (.json 200 (.success true), ⟨s.users, Ticket.remove s.tickets ticket⟩)

/-- Handler `updateSingleTicket`. -/
def updateSingleTicket (s : Store) (reqUser : Id) (paramsId : Id) (body : Body) :
    Response × Store :=
  match User.findById s.users reqUser with
  | none => (.error 401 "User not found", s)
  | some user =>
    match Ticket.findById s.tickets paramsId with
    | none => (.error 404 "Ticket not found", s)
    | some ticket =>
      if ticket.user != reqUser && !user.isAdmin then (.error 401 "Not authorized", s)
      else
        let r := Ticket.findByIdAndUpdate s.tickets paramsId body
        (.json 200 (match r.1 with | some t => .doc t | none => .null), ⟨s.users, r.2⟩)

/-- The data-model invariant that ticket ids are unique in the store. -/
def Store.UniqueIds (s : Store) : Prop := (s.tickets.map Ticket.id).Nodup

instance (s : Store) : Decidable s.UniqueIds := by
  unfold Store.UniqueIds; infer_instance

/-- A call of one of the six handlers, with its inputs. -/
inductive Op where
  | getTickets (reqUser : Id)
  | getAllTickets (readOk : Bool) (caller : Option Id)
  | getSingleTicket (reqUser paramsId : Id)
  | createTicket (reqUser : Id) (body : Body) (newId : Id)
  | deleteSingleTicket (reqUser paramsId : Id)
  | updateSingleTicket (reqUser paramsId : Id) (body : Body)
deriving DecidableEq

/-- Runs one handler call on a store. -/
def Op.run (s : Store) : Op → Response × Store
  | .getTickets reqUser => TicketController.getTickets s reqUser
  | .getAllTickets readOk caller => TicketController.getAllTickets s readOk caller
  | .getSingleTicket reqUser paramsId => TicketController.getSingleTicket s reqUser paramsId
  | .createTicket reqUser body newId => TicketController.createTicket s reqUser body newId
  | .deleteSingleTicket reqUser paramsId => TicketController.deleteSingleTicket s reqUser paramsId
  | .updateSingleTicket reqUser paramsId body =>
    TicketController.updateSingleTicket s reqUser paramsId body

/-- The store left by a sequence of handler calls, run one after the other. -/
def runAll (s : Store) (ops : List Op) : Store :=
  ops.foldl (fun st op => (op.run st).2) s

/-- The call is not an update whose body carries the field `user`. -/
def Op.keepsUser : Op → Prop
  | .updateSingleTicket _ _ body => body.user = none
  | _ => True

/-- Fixture: an ordinary user. -/
def alice : User := ⟨"u1", false⟩

/-- Fixture: a second ordinary user. -/
def bob : User := ⟨"u2", false⟩

/-- Fixture: an administrator. -/
def root : User := ⟨"a1", true⟩

/-- Fixture: a ticket owned by `alice`. -/
def laptop : Ticket := ⟨"t1", "u1", "Laptop", "No boot", "new", none⟩

/-- Fixture: three users and one ticket. -/
def desk : Store := ⟨[alice, bob, root], [laptop]⟩

/-! ## Lemmas about the store calls -/

theorem User.findById_record_id {users : List User} {id : Id} {u : User}
    (h : User.findById users id = some u) : u.id = id := by
  have := List.find?_some h
  simpa using this

theorem Ticket.findById_id {tickets : List Ticket} {id : Id} {t : Ticket}
    (h : Ticket.findById tickets id = some t) : t.id = id := by
  have := List.find?_some h
  simpa using this

theorem Ticket.findById_mem {tickets : List Ticket} {id : Id} {t : Ticket}
    (h : Ticket.findById tickets id = some t) : t ∈ tickets :=
  List.mem_of_find?_eq_some h

theorem Ticket.findById_eq_none {tickets : List Ticket} {id : Id} :
    Ticket.findById tickets id = none ↔ ∀ t ∈ tickets, t.id ≠ id := by
  simp [Ticket.findById]

/-- With unique ids, looking up the id of a stored ticket returns that ticket. -/
theorem Ticket.findById_of_mem {tickets : List Ticket} {t : Ticket}
    (hmem : t ∈ tickets) (huniq : (tickets.map Ticket.id).Nodup) :
    Ticket.findById tickets t.id = some t := by
  induction tickets with
  | nil => simp at hmem
  | cons x xs ih =>
    simp only [List.map_cons, List.nodup_cons, List.mem_map, not_exists, not_and] at huniq
    rcases List.mem_cons.1 hmem with rfl | hxs
    · simp [Ticket.findById]
    · have hne : x.id ≠ t.id := fun h => huniq.1 t hxs h.symm
      have := ih hxs huniq.2
      simp only [Ticket.findById] at this ⊢
      simp [List.find?_cons, hne, this]

theorem Body.applyTo_empty (t : Ticket) : Body.empty.applyTo t = t := by
  cases t; rfl

theorem Body.applyTo_id (b : Body) (t : Ticket) : (b.applyTo t).id = t.id := rfl

theorem Body.applyTo_user (b : Body) (t : Ticket) (h : b.user = none) :
    (b.applyTo t).user = t.user := by
  simp [Body.applyTo, h]

/-- The document returned by an update is the merge of the body into the
document the lookup finds. -/
theorem Ticket.findByIdAndUpdate_fst (tickets : List Ticket) (id : Id) (body : Body) :
    (Ticket.findByIdAndUpdate tickets id body).1
      = (Ticket.findById tickets id).map body.applyTo := by
  induction tickets with
  | nil => rfl
  | cons x xs ih =>
    by_cases h : x.id = id
    · simp [Ticket.findByIdAndUpdate, Ticket.findById, h]
    · simp only [Ticket.findById] at ih
      simp [Ticket.findByIdAndUpdate, Ticket.findById, List.find?_cons, h, ih]

/-- After an update the lookup returns the updated document. -/
theorem Ticket.findById_findByIdAndUpdate (tickets : List Ticket) (id : Id) (body : Body) :
    Ticket.findById (Ticket.findByIdAndUpdate tickets id body).2 id
      = (Ticket.findById tickets id).map body.applyTo := by
  induction tickets with
  | nil => rfl
  | cons x xs ih =>
    by_cases h : x.id = id
    · simp [Ticket.findByIdAndUpdate, Ticket.findById, h, Body.applyTo_id]
    · simp only [Ticket.findById] at ih
      simp [Ticket.findByIdAndUpdate, Ticket.findById, List.find?_cons, h, ih]

/-- An update with the empty body leaves the collection as it is. -/
theorem Ticket.findByIdAndUpdate_empty (tickets : List Ticket) (id : Id) :
    (Ticket.findByIdAndUpdate tickets id Body.empty).2 = tickets := by
  induction tickets with
  | nil => rfl
  | cons x xs ih =>
    by_cases h : x.id = id
    · simp [Ticket.findByIdAndUpdate, h, Body.applyTo_empty]
    · simp [Ticket.findByIdAndUpdate, h, ih]

/-- Every document of the collection after an update is a document of the
collection before it, or the merge of the body into one. -/
theorem Ticket.mem_findByIdAndUpdate {tickets : List Ticket} {id : Id} {body : Body}
    {t : Ticket} (h : t ∈ (Ticket.findByIdAndUpdate tickets id body).2) :
    t ∈ tickets ∨ ∃ x ∈ tickets, t = body.applyTo x := by
  induction tickets with
  | nil => simp [Ticket.findByIdAndUpdate] at h
  | cons x xs ih =>
    by_cases hx : x.id = id
    · simp only [Ticket.findByIdAndUpdate, beq_iff_eq, hx, if_true, List.mem_cons] at h
      rcases h with rfl | h
      · exact Or.inr ⟨x, by simp, rfl⟩
      · exact Or.inl (by simp [h])
    · simp only [Ticket.findByIdAndUpdate, beq_iff_eq, hx, if_false, List.mem_cons] at h
      rcases h with rfl | h
      · exact Or.inl (by simp)
      · rcases ih h with h | ⟨y, hy, rfl⟩
        · exact Or.inl (by simp [h])
        · exact Or.inr ⟨y, by simp [hy], rfl⟩

theorem Ticket.mem_remove {tickets : List Ticket} {t x : Ticket}
    (h : x ∈ Ticket.remove tickets t) : x ∈ tickets :=
  (List.eraseP_sublist tickets).subset h

/-- With unique ids, no document carries the id of a removed ticket. -/
theorem Ticket.findById_remove {tickets : List Ticket} {t : Ticket}
    (hmem : t ∈ tickets) (huniq : (tickets.map Ticket.id).Nodup) :
    Ticket.findById (Ticket.remove tickets t) t.id = none := by
  induction tickets with
  | nil => simp at hmem
  | cons x xs ih =>
    simp only [List.map_cons, List.nodup_cons, List.mem_map, not_exists, not_and] at huniq
    by_cases hx : x.id = t.id
    · have hnone : ∀ y ∈ xs, y.id ≠ t.id := fun y hy hyt => huniq.1 y hy (hyt.trans hx.symm)
      simp [Ticket.remove, List.eraseP_cons, hx]
      exact Ticket.findById_eq_none.2 hnone
    · have hxs : t ∈ xs := by
        rcases List.mem_cons.1 hmem with rfl | h
        · exact absurd rfl hx
        · exact h
      have := ih hxs huniq.2
      simp only [Ticket.remove, Ticket.findById] at this ⊢
      simp [List.eraseP_cons, hx, List.find?_cons, this]

/-! ## The single-ticket handlers -/

/-- C5: `getSingleTicket`, `deleteSingleTicket` and `updateSingleTicket` check, in
this order: no user record for the requester gives 401 "User not found" (whatever
the ticket id); else no ticket with the id gives 404 "Ticket not found"; else a
requester who is neither the owner nor an admin gives 401 "Not authorized"; only
otherwise does the handler answer 200. The three handlers always answer with the
same status and the same error message. -/
theorem single_ticket_check_order (s : Store) (reqUser paramsId : Id) (body : Body) :
    (User.findById s.users reqUser = none →
      getSingleTicket s reqUser paramsId = (.error 401 "User not found", s) ∧
      deleteSingleTicket s reqUser paramsId = (.error 401 "User not found", s) ∧
      updateSingleTicket s reqUser paramsId body = (.error 401 "User not found", s)) ∧
    (∀ user, User.findById s.users reqUser = some user →
      Ticket.findById s.tickets paramsId = none →
      getSingleTicket s reqUser paramsId = (.error 404 "Ticket not found", s) ∧
      deleteSingleTicket s reqUser paramsId = (.error 404 "Ticket not found", s) ∧
      updateSingleTicket s reqUser paramsId body = (.error 404 "Ticket not found", s)) ∧
    (∀ user ticket, User.findById s.users reqUser = some user →
      Ticket.findById s.tickets paramsId = some ticket →
      ticket.user ≠ reqUser → user.isAdmin = false →
      getSingleTicket s reqUser paramsId = (.error 401 "Not authorized", s) ∧
      deleteSingleTicket s reqUser paramsId = (.error 401 "Not authorized", s) ∧
      updateSingleTicket s reqUser paramsId body = (.error 401 "Not authorized", s)) ∧
    (∀ user ticket, User.findById s.users reqUser = some user →
      Ticket.findById s.tickets paramsId = some ticket →
      (ticket.user = reqUser ∨ user.isAdmin = true) →
      (getSingleTicket s reqUser paramsId).1 = .json 200 (.doc ticket) ∧
      (deleteSingleTicket s reqUser paramsId).1 = .json 200 (.success true) ∧
      (updateSingleTicket s reqUser paramsId body).1 = .json 200 (.doc (body.applyTo ticket))) ∧
    ((getSingleTicket s reqUser paramsId).1.status
        = (deleteSingleTicket s reqUser paramsId).1.status ∧
      (getSingleTicket s reqUser paramsId).1.status
        = (updateSingleTicket s reqUser paramsId body).1.status ∧
      (getSingleTicket s reqUser paramsId).1.message
        = (deleteSingleTicket s reqUser paramsId).1.message ∧
      (getSingleTicket s reqUser paramsId).1.message
        = (updateSingleTicket s reqUser paramsId body).1.message) := by
  refine ⟨?_, ?_, ?_, ?_, ?_⟩
  · intro hu
    simp [getSingleTicket, deleteSingleTicket, updateSingleTicket, hu]
  · intro user hu ht
    simp [getSingleTicket, deleteSingleTicket, updateSingleTicket, hu, ht]
  · intro user ticket hu ht hown hadm
    simp [getSingleTicket, deleteSingleTicket, updateSingleTicket, hu, ht, hown, hadm]
  · intro user ticket hu ht hauth
    have hfst := Ticket.findByIdAndUpdate_fst s.tickets paramsId body
    rw [ht] at hfst
    have hcond : (ticket.user != reqUser && !user.isAdmin) = false := by
      rcases hauth with h | h <;> simp [h]
    simp [getSingleTicket, deleteSingleTicket, updateSingleTicket, hu, ht, hcond, hfst]
  · cases hu : User.findById s.users reqUser with
    | none => simp [getSingleTicket, deleteSingleTicket, updateSingleTicket, hu, Response.status,
        Response.message]
    | some user =>
      cases ht : Ticket.findById s.tickets paramsId with
      | none => simp [getSingleTicket, deleteSingleTicket, updateSingleTicket, hu, ht,
          Response.status, Response.message]
      | some ticket =>
        cases hcond : (ticket.user != reqUser && !user.isAdmin) <;>
          simp [getSingleTicket, deleteSingleTicket, updateSingleTicket, hu, ht, hcond,
            Response.status, Response.message]

/-- The check order observed on a fixture store for a requester without a
user record asking for a ticket id that does not exist either. -/
theorem single_ticket_check_order_witness :
    getSingleTicket desk "ghost" "missing" = (.error 401 "User not found", desk) :=
  ((single_ticket_check_order desk "ghost" "missing" Body.empty).1 (by decide)).1

/-- C1: in a store with unique ticket ids, for a stored ticket `T` and a
requester who has a user record, does not own `T` and is not an admin, the get,
update (any body) and delete handlers each answer 401 "Not authorized" and
leave the store as it was. -/
theorem stranger_rejected (s : Store) (T : Ticket) (reqUser : Id) (R : User) (body : Body)
    (hT : T ∈ s.tickets) (huniq : s.UniqueIds)
    (hR : User.findById s.users reqUser = some R)
    (hown : T.user ≠ reqUser) (hadm : R.isAdmin = false) :
    getSingleTicket s reqUser T.id = (.error 401 "Not authorized", s) ∧
    updateSingleTicket s reqUser T.id body = (.error 401 "Not authorized", s) ∧
    deleteSingleTicket s reqUser T.id = (.error 401 "Not authorized", s) := by
  have ht := Ticket.findById_of_mem hT huniq
  simp [getSingleTicket, deleteSingleTicket, updateSingleTicket, hR, ht, hown, hadm]

/-- On the fixture store, `bob` is refused on the ticket of `alice`. -/
theorem stranger_rejected_witness :
    getSingleTicket desk "u2" "t1" = (.error 401 "Not authorized", desk) ∧
    updateSingleTicket desk "u2" "t1" ⟨none, none, none, some "closed", none⟩
      = (.error 401 "Not authorized", desk) ∧
    deleteSingleTicket desk "u2" "t1" = (.error 401 "Not authorized", desk) :=
  stranger_rejected desk laptop "u2" bob ⟨none, none, none, some "closed", none⟩
    (by decide) (by decide) (by decide) (by decide) (by decide)

/-- C2, as stated, fails: the owner of a stored ticket whose user record is
gone is answered 401 "User not found" by all three handlers. -/
theorem owner_without_record_rejected :
    laptop ∈ (Store.mk [bob] [laptop]).tickets ∧ laptop.user = "u1" ∧
    getSingleTicket ⟨[bob], [laptop]⟩ "u1" laptop.id
      = (.error 401 "User not found", ⟨[bob], [laptop]⟩) ∧
    updateSingleTicket ⟨[bob], [laptop]⟩ "u1" laptop.id Body.empty
      = (.error 401 "User not found", ⟨[bob], [laptop]⟩) ∧
    deleteSingleTicket ⟨[bob], [laptop]⟩ "u1" laptop.id
      = (.error 401 "User not found", ⟨[bob], [laptop]⟩) := by
  decide

/-- C2, amended: in a store with unique ticket ids, for a stored ticket `T` and
a requester who has a user record and owns `T` or is an admin, get answers 200
with `T`, update (any body) answers 200 with the merged record, which is then
the record stored under the id, and delete answers 200 with `{success: true}`. -/
theorem authorized_succeeds (s : Store) (T : Ticket) (reqUser : Id) (R : User) (body : Body)
    (hT : T ∈ s.tickets) (huniq : s.UniqueIds)
    (hR : User.findById s.users reqUser = some R)
    (hauth : T.user = reqUser ∨ R.isAdmin = true) :
    getSingleTicket s reqUser T.id = (.json 200 (.doc T), s) ∧
    (updateSingleTicket s reqUser T.id body).1 = .json 200 (.doc (body.applyTo T)) ∧
    Ticket.findById (updateSingleTicket s reqUser T.id body).2.tickets T.id
      = some (body.applyTo T) ∧
    (deleteSingleTicket s reqUser T.id).1 = .json 200 (.success true) := by
  have ht := Ticket.findById_of_mem hT huniq
  have hfst := Ticket.findByIdAndUpdate_fst s.tickets T.id body
  have hfind := Ticket.findById_findByIdAndUpdate s.tickets T.id body
  rw [ht] at hfst hfind
  have hcond : (T.user != reqUser && !R.isAdmin) = false := by
    rcases hauth with h | h <;> simp [h]
  simp [getSingleTicket, deleteSingleTicket, updateSingleTicket, hR, ht, hcond, hfst, hfind]

/-- On the fixture store, the admin reads, closes and deletes the ticket of `alice`. -/
theorem authorized_succeeds_witness :
    getSingleTicket desk "a1" "t1" = (.json 200 (.doc laptop), desk) ∧
    (updateSingleTicket desk "a1" "t1" ⟨none, none, none, some "closed", none⟩).1
      = .json 200 (.doc ⟨"t1", "u1", "Laptop", "No boot", "closed", none⟩) ∧
    Ticket.findById
        (updateSingleTicket desk "a1" "t1" ⟨none, none, none, some "closed", none⟩).2.tickets "t1"
      = some ⟨"t1", "u1", "Laptop", "No boot", "closed", none⟩ ∧
    (deleteSingleTicket desk "a1" "t1").1 = .json 200 (.success true) :=
  authorized_succeeds desk laptop "a1" root ⟨none, none, none, some "closed", none⟩
    (by decide) (by decide) (by decide) (by decide)

/-- C8: in a store with unique ticket ids, for a stored ticket `T` and a
requester with a user record who owns `T` or is an admin, `updateSingleTicket`
with the empty body answers 200 with `T` itself and leaves the store as it was. -/
theorem update_empty_body (s : Store) (T : Ticket) (reqUser : Id) (R : User)
    (hT : T ∈ s.tickets) (huniq : s.UniqueIds)
    (hR : User.findById s.users reqUser = some R)
    (hauth : T.user = reqUser ∨ R.isAdmin = true) :
    updateSingleTicket s reqUser T.id Body.empty = (.json 200 (.doc T), s) := by
  have ht := Ticket.findById_of_mem hT huniq
  have hfst := Ticket.findByIdAndUpdate_fst s.tickets T.id Body.empty
  have hsnd := Ticket.findByIdAndUpdate_empty s.tickets T.id
  rw [ht] at hfst
  have hcond : (T.user != reqUser && !R.isAdmin) = false := by
    rcases hauth with h | h <;> simp [h]
  simp [updateSingleTicket, hR, ht, hcond, hfst, hsnd, Body.applyTo_empty]

/-- On the fixture store, `alice` updates her ticket with the empty body. -/
theorem update_empty_body_witness :
    updateSingleTicket desk "u1" "t1" Body.empty = (.json 200 (.doc laptop), desk) :=
  update_empty_body desk laptop "u1" alice (by decide) (by decide) (by decide) (by decide)

/-- C7: in a store with unique ticket ids, when `deleteSingleTicket` on a stored
ticket `T` answers 200, `T` is not in the store it leaves, no ticket carries the
id of `T` there, and the same delete by the same requester on that store answers
404 "Ticket not found" and changes nothing. -/
theorem delete_twice (s : Store) (T : Ticket) (reqUser : Id)
    (hT : T ∈ s.tickets) (huniq : s.UniqueIds)
    (hok : (deleteSingleTicket s reqUser T.id).1.status = 200) :
    T ∉ (deleteSingleTicket s reqUser T.id).2.tickets ∧
    Ticket.findById (deleteSingleTicket s reqUser T.id).2.tickets T.id = none ∧
    deleteSingleTicket (deleteSingleTicket s reqUser T.id).2 reqUser T.id
      = (.error 404 "Ticket not found", (deleteSingleTicket s reqUser T.id).2) := by
  have ht := Ticket.findById_of_mem hT huniq
  have hgone := Ticket.findById_remove hT huniq
  cases hR : User.findById s.users reqUser with
  | none => simp [deleteSingleTicket, hR, Response.status] at hok
  | some R =>
    cases hcond : (T.user != reqUser && !R.isAdmin) with
    | true => simp [deleteSingleTicket, hR, ht, hcond, Response.status] at hok
    | false =>
      have hs : (deleteSingleTicket s reqUser T.id).2 = ⟨s.users, Ticket.remove s.tickets T⟩ := by
        simp [deleteSingleTicket, hR, ht, hcond]
      rw [hs]
      refine ⟨?_, hgone, ?_⟩
      · intro hmem
        exact Ticket.findById_eq_none.1 hgone T hmem rfl
      · simp [deleteSingleTicket, hR, hgone]

/-- On the fixture store, `alice` deletes her ticket twice. -/
theorem delete_twice_witness :
    laptop ∉ (deleteSingleTicket desk "u1" "t1").2.tickets ∧
    Ticket.findById (deleteSingleTicket desk "u1" "t1").2.tickets "t1" = none ∧
    deleteSingleTicket (deleteSingleTicket desk "u1" "t1").2 "u1" "t1"
      = (.error 404 "Ticket not found", (deleteSingleTicket desk "u1" "t1").2) :=
  delete_twice desk laptop "u1" (by decide) (by decide) (by decide)

/-! ## Creation -/

/-- C6: a body whose `product` or `description` is missing or empty makes
`createTicket` answer 400 "Please add a product and description" for every
requester, with or without a user record, and the store is left as it was. -/
theorem create_missing_field (s : Store) (reqUser : Id) (body : Body) (newId : Id)
    (hbad : body.product = none ∨ body.product = some "" ∨
      body.description = none ∨ body.description = some "") :
    createTicket s reqUser body newId
      = (.error 400 "Please add a product and description", s) := by
  rcases hbad with h | h | h | h <;> simp [createTicket, truthy, h]

/-- A requester without a user record sending an empty product is answered 400. -/
theorem create_missing_field_witness :
    createTicket desk "ghost" ⟨some "", some "x", none, none, none⟩ "t2"
      = (.error 400 "Please add a product and description", desk) :=
  create_missing_field desk "ghost" ⟨some "", some "x", none, none, none⟩ "t2"
    (Or.inr (Or.inl rfl))

/-- C3: for a body with non-empty `product` and `description` (its other fields
are arbitrary), a requester with a user record and a generated id that no stored
ticket carries, `createTicket` answers 200 with the new ticket, appended to the
store, and `getSingleTicket` by the same requester on the returned id answers 200
with a ticket whose status is "new", whose tutor is null, whose user is the
requester and whose product and description are the supplied ones. -/
theorem create_then_get (s : Store) (reqUser : Id) (R : User) (body : Body) (newId : Id)
    (product description : String)
    (hR : User.findById s.users reqUser = some R)
    (hp : body.product = some product) (hpne : product ≠ "")
    (hd : body.description = some description) (hdne : description ≠ "")
    (hfresh : ∀ t ∈ s.tickets, t.id ≠ newId) :
    createTicket s reqUser body newId
      = (.json 200 (.doc ⟨newId, reqUser, product, description, "new", none⟩),
         ⟨s.users, s.tickets ++ [⟨newId, reqUser, product, description, "new", none⟩]⟩) ∧
    getSingleTicket (createTicket s reqUser body newId).2 reqUser newId
      = (.json 200 (.doc ⟨newId, reqUser, product, description, "new", none⟩),
         (createTicket s reqUser body newId).2) := by
  have hc : createTicket s reqUser body newId
      = (.json 200 (.doc ⟨newId, reqUser, product, description, "new", none⟩),
         ⟨s.users, s.tickets ++ [⟨newId, reqUser, product, description, "new", none⟩]⟩) := by
    simp [createTicket, truthy, hp, hd, hpne, hdne, hR, Ticket.create]
  refine ⟨hc, ?_⟩
  rw [hc]
  have hnone : List.find? (fun t => t.id == newId) s.tickets = none := by
    simpa [Ticket.findById] using (Ticket.findById_eq_none.2 hfresh)
  have hfind : Ticket.findById
      (s.tickets ++ [⟨newId, reqUser, product, description, "new", none⟩]) newId
      = some ⟨newId, reqUser, product, description, "new", none⟩ := by
    simp [Ticket.findById, List.find?_append, hnone]
  simp [getSingleTicket, hR, hfind]

/-- On the fixture store, `bob` creates a ticket, sending also the fields
`user`, `status` and `tutor`, and reads it back. -/
theorem create_then_get_witness :
    createTicket desk "u2" ⟨some "Phone", some "Cracked", some "u1", some "closed",
        some (some "a1")⟩ "t2"
      = (.json 200 (.doc ⟨"t2", "u2", "Phone", "Cracked", "new", none⟩),
         ⟨desk.users, desk.tickets ++ [⟨"t2", "u2", "Phone", "Cracked", "new", none⟩]⟩) ∧
    getSingleTicket (createTicket desk "u2" ⟨some "Phone", some "Cracked", some "u1",
        some "closed", some (some "a1")⟩ "t2").2 "u2" "t2"
      = (.json 200 (.doc ⟨"t2", "u2", "Phone", "Cracked", "new", none⟩),
         (createTicket desk "u2" ⟨some "Phone", some "Cracked", some "u1", some "closed",
        some (some "a1")⟩ "t2").2) :=
  create_then_get desk "u2" bob ⟨some "Phone", some "Cracked", some "u1", some "closed",
    some (some "a1")⟩ "t2" "Phone" "Cracked" (by decide) rfl (by decide) rfl (by decide)
    (by decide)

/-! ## The list handlers -/

/-- C9: `getTickets` answers 401 "User not found" when the requester has no user
record; otherwise it answers 200 with the tickets whose `user` is the requester
id: all of them and no other ticket, whatever `isAdmin` says, in store order; in
both cases the store is left as it was. -/
theorem getTickets_own (s : Store) (reqUser : Id) :
    (User.findById s.users reqUser = none →
      getTickets s reqUser = (.error 401 "User not found", s)) ∧
    (∀ R, User.findById s.users reqUser = some R →
      ∃ ts, getTickets s reqUser = (.json 200 (.docs ts), s) ∧
        ts = s.tickets.filter (fun t => t.user == reqUser) ∧
        (∀ t, t ∈ ts ↔ t ∈ s.tickets ∧ t.user = reqUser) ∧
        ts.Sublist s.tickets) := by
  refine ⟨?_, ?_⟩
  · intro hu
    simp [getTickets, hu]
  · intro R hu
    refine ⟨Ticket.find s.tickets reqUser, ?_, ?_, ?_, ?_⟩
    · simp [getTickets, hu]
    · rfl
    · intro t
      simp [Ticket.find]
    · exact List.filter_sublist s.tickets

/-- On the fixture store, the admin, who owns no ticket, lists none. -/
theorem getTickets_own_witness :
    ∃ ts, getTickets desk "a1" = (.json 200 (.docs ts), desk) ∧
      ts = desk.tickets.filter (fun t => t.user == "a1") ∧
      (∀ t, t ∈ ts ↔ t ∈ desk.tickets ∧ t.user = "a1") ∧
      ts.Sublist desk.tickets :=
  (getTickets_own desk "a1").2 root (by decide)

/-- C10: when the store read completes, `getAllTickets` answers 200 with every
ticket of the store, in store order, for every caller, with or without a user
record, and leaves the store as it was; its outcome never depends on the caller;
and it answers 401 "Not a tutor." exactly when the store read fails. -/
theorem getAllTickets_everything (s : Store) :
    (∀ caller, getAllTickets s true caller = (.json 200 (.docs s.tickets), s)) ∧
    (∀ readOk caller caller', getAllTickets s readOk caller = getAllTickets s readOk caller') ∧
    (∀ readOk caller,
      (getAllTickets s readOk caller).1 = .error 401 "Not a tutor." ↔ readOk = false) ∧
    (∀ readOk caller, (getAllTickets s readOk caller).2 = s) := by
  refine ⟨?_, ?_, ?_, ?_⟩
  · intro caller
    simp [getAllTickets, Ticket.findAll]
  · intro readOk caller caller'
    rfl
  · intro readOk caller
    cases readOk <;> simp [getAllTickets, Ticket.findAll]
  · intro readOk caller
    cases readOk <;> simp [getAllTickets, Ticket.findAll]

/-! ## Ownership along sequences of calls -/

/-- One call that is not an update carrying `user`: every ticket of the store it
leaves has the id and owner of a ticket of the store before, or is the ticket a
`createTicket` call made, owned by its requester. -/
theorem run_owner (s : Store) (op : Op) (hop : op.keepsUser) (t' : Ticket)
    (ht' : t' ∈ (op.run s).2.tickets) :
    (∃ t ∈ s.tickets, t.id = t'.id ∧ t.user = t'.user) ∨
    (∃ reqUser body, op = .createTicket reqUser body t'.id ∧ t'.user = reqUser) := by
  cases op with
  | getTickets reqUser =>
    have hs : (getTickets s reqUser).2 = s := by
      unfold getTickets; split <;> rfl
    simp only [Op.run, hs] at ht'
    exact Or.inl ⟨t', ht', rfl, rfl⟩
  | getAllTickets readOk caller =>
    have hs : (getAllTickets s readOk caller).2 = s := by
      unfold getAllTickets; split <;> rfl
    simp only [Op.run, hs] at ht'
    exact Or.inl ⟨t', ht', rfl, rfl⟩
  | getSingleTicket reqUser paramsId =>
    have hs : (getSingleTicket s reqUser paramsId).2 = s := by
      unfold getSingleTicket; split
      · rfl
      · split
        · rfl
        · split <;> rfl
    simp only [Op.run, hs] at ht'
    exact Or.inl ⟨t', ht', rfl, rfl⟩
  | createTicket reqUser body newId =>
    simp only [Op.run, createTicket] at ht'
    split at ht'
    · exact Or.inl ⟨t', ht', rfl, rfl⟩
    · split at ht'
      · exact Or.inl ⟨t', ht', rfl, rfl⟩
      · simp only [Ticket.create, List.mem_append, List.mem_singleton] at ht'
        rcases ht' with h | rfl
        · exact Or.inl ⟨t', h, rfl, rfl⟩
        · exact Or.inr ⟨reqUser, body, rfl, rfl⟩
  | deleteSingleTicket reqUser paramsId =>
    simp only [Op.run, deleteSingleTicket] at ht'
    split at ht'
    · exact Or.inl ⟨t', ht', rfl, rfl⟩
    · split at ht'
      · exact Or.inl ⟨t', ht', rfl, rfl⟩
      · split at ht'
        · exact Or.inl ⟨t', ht', rfl, rfl⟩
        · exact Or.inl ⟨t', Ticket.mem_remove ht', rfl, rfl⟩
  | updateSingleTicket reqUser paramsId body =>
    have hb : body.user = none := hop
    simp only [Op.run, updateSingleTicket] at ht'
    split at ht'
    · exact Or.inl ⟨t', ht', rfl, rfl⟩
    · split at ht'
      · exact Or.inl ⟨t', ht', rfl, rfl⟩
      · split at ht'
        · exact Or.inl ⟨t', ht', rfl, rfl⟩
        · rcases Ticket.mem_findByIdAndUpdate ht' with h | ⟨x, hx, rfl⟩
          · exact Or.inl ⟨t', h, rfl, rfl⟩
          · exact Or.inl ⟨x, hx, (Body.applyTo_id body x).symm,
              (Body.applyTo_user body x hb).symm⟩

/-- C4, as stated, fails: `alice` creates a ticket, which she owns, and then
updates it with the body `{user: "u2"}`; the ticket still exists and its owner
is now `bob`. -/
theorem owner_reassigned_by_update :
    (runAll ⟨[alice, bob], []⟩
      [.createTicket "u1" ⟨some "Laptop", some "No boot", none, none, none⟩ "t1"]).tickets
      = [⟨"t1", "u1", "Laptop", "No boot", "new", none⟩] ∧
    (runAll ⟨[alice, bob], []⟩
      [.createTicket "u1" ⟨some "Laptop", some "No boot", none, none, none⟩ "t1",
       .updateSingleTicket "u1" "t1" ⟨none, none, some "u2", none, none⟩]).tickets
      = [⟨"t1", "u2", "Laptop", "No boot", "new", none⟩] := by
  decide

/-- C4, amended: along every sequence of handler calls in which no update body
carries the field `user`, run from any store, every ticket of the final store
has the id and owner of a ticket of the initial store, or the id generated for,
and the requester of, a `createTicket` call of the sequence. -/
theorem owner_kept (s : Store) (ops : List Op) (hops : ∀ op ∈ ops, op.keepsUser) :
    ∀ t' ∈ (runAll s ops).tickets,
      (∃ t ∈ s.tickets, t.id = t'.id ∧ t.user = t'.user) ∨
      (∃ reqUser body, Op.createTicket reqUser body t'.id ∈ ops ∧ t'.user = reqUser) := by
  induction ops generalizing s with
  | nil =>
    intro t' ht'
    exact Or.inl ⟨t', ht', rfl, rfl⟩
  | cons op ops ih =>
    intro t' ht'
    have hrest : ∀ o ∈ ops, o.keepsUser := fun o ho => hops o (List.mem_cons_of_mem _ ho)
    have hstep : runAll s (op :: ops) = runAll (op.run s).2 ops := rfl
    rw [hstep] at ht'
    rcases ih (op.run s).2 hrest t' ht' with ⟨t, ht, hid, huser⟩ | ⟨r, b, hmem, huser⟩
    · rcases run_owner s op (hops op (List.mem_cons_self _ _)) t ht with
        ⟨t0, ht0, hid0, huser0⟩ | ⟨r, b, hop, huser0⟩
      · exact Or.inl ⟨t0, ht0, hid0.trans hid, huser0.trans huser⟩
      · refine Or.inr ⟨r, b, ?_, huser ▸ huser0⟩
        rw [← hid, ← hop]
        exact List.mem_cons_self _ _
    · exact Or.inr ⟨r, b, List.mem_cons_of_mem _ hmem, huser⟩

/-- On the fixture store: `bob` creates a ticket, the admin sets its status and
tutor, `alice` deletes hers; the ticket left is the one `bob` created and owns. -/
theorem owner_kept_witness :
    (runAll desk
        [.createTicket "u2" ⟨some "Phone", some "Cracked", none, none, none⟩ "t2",
         .updateSingleTicket "a1" "t2" ⟨none, none, none, some "open", some (some "a1")⟩,
         .deleteSingleTicket "u1" "t1"]).tickets
      = [⟨"t2", "u2", "Phone", "Cracked", "open", some "a1"⟩] ∧
    ((∃ t ∈ desk.tickets, t.id = "t2" ∧ t.user = "u2") ∨
      (∃ reqUser body, Op.createTicket reqUser body "t2" ∈
        [Op.createTicket "u2" ⟨some "Phone", some "Cracked", none, none, none⟩ "t2",
         .updateSingleTicket "a1" "t2" ⟨none, none, none, some "open", some (some "a1")⟩,
         .deleteSingleTicket "u1" "t1"] ∧ "u2" = reqUser)) :=
  ⟨by decide,
   owner_kept desk
    [.createTicket "u2" ⟨some "Phone", some "Cracked", none, none, none⟩ "t2",
     .updateSingleTicket "a1" "t2" ⟨none, none, none, some "open", some (some "a1")⟩,
     .deleteSingleTicket "u1" "t1"]
    (by
      intro op hop
      simp only [List.mem_cons, List.mem_singleton, List.not_mem_nil, or_false] at hop
      rcases hop with rfl | rfl | rfl
      · trivial
      · rfl
      · trivial)
    ⟨"t2", "u2", "Phone", "Cracked", "open", some "a1"⟩ (by decide)⟩

end TicketController
